import Mathlib

/-!
Shallow embedding of the research-paper backend (`src/app.py`): data model
(`User`, `Paper`), the helper functions `extract_text_from_pdf`,
`analyze_with_gemini_rest`, `analyze_paper_with_ai`, and the route handlers
`signup`, `login`, `get_papers`, `upload_paper`, `get_paper`, `delete_paper`.

External collaborators (bcrypt hashing, JWT issuance, the Gemini HTTP call,
the SQLAlchemy commit) are passed in as explicit function/oracle parameters;
the database and the upload directory are an explicit `St` state record.
Python string methods (`str.lower`, `str.endswith`, `str.replace`,
`str.split`) are embedded as executable character-list functions so that
every definition evaluates inside the kernel.
-/

namespace App

/-- Embedding of Python `s[:n]` (slicing by code points). -/
def pySlice (s : String) (n : Nat) : String := ⟨s.data.take n⟩

/-- Embedding of Python `str.lower()` (character-wise lowering). -/
def lowerStr (s : String) : String := ⟨s.data.map Char.toLower⟩

/-- Embedding of Python `s.endswith(t)`. -/
def endsWithStr (s t : String) : Bool := t.data.isSuffixOf s.data

/-- Embedding of Python `s.startswith(t)`. -/
def startsWithStr (s t : String) : Bool := t.data.isPrefixOf s.data

/-- Fuel-driven worker for `pyReplace`; the fuel starts at the length of the
scanned list, which bounds the number of steps, so the recursion is structural
and kernel-reducible. -/
def replaceFuel (old new : List Char) : Nat → List Char → List Char
  | 0, l => l
  | _ + 1, [] => []
  | n + 1, c :: rest =>
    if old ≠ [] ∧ old.isPrefixOf (c :: rest) then
      new ++ replaceFuel old new n ((c :: rest).drop old.length)
    else c :: replaceFuel old new n rest

/-- Embedding of Python `s.replace(old, new)`: every non-overlapping
occurrence of `old` is replaced, scanning left to right. -/
def pyReplace (s old new : String) : String :=
  ⟨replaceFuel old.data new.data s.data.length s.data⟩

/-- Worker for `splitChar`. -/
def splitCharAux (c : Char) : List Char → List Char → List (List Char)
  | [], acc => [acc.reverse]
  | ch :: rest, acc =>
    if ch = c then acc.reverse :: splitCharAux c rest []
    else splitCharAux c rest (ch :: acc)

/-- Split a string at every occurrence of the character `c`
(Python `s.split(c)`). -/
def splitChar (c : Char) (s : String) : List String :=
  (splitCharAux c s.data []).map List.asString

/-- Embedding of `os.path.join(a, b)` for POSIX paths: an absolute second
component replaces the first, otherwise the two are joined with a single
slash. -/
def osPathJoin (a b : String) : String :=
  if startsWithStr b "/" then b
  else if a = "" then b
  else if endsWithStr a "/" then a ++ b
  else a ++ "/" ++ b

/-- One step of `os.path.normpath`-style component normalisation:
drop empty and `.` components, let `..` cancel the previous real component
(or survive at the front of a relative path). -/
def normStep (acc : List String) (c : String) : List String :=
  if c = "" ∨ c = "." then acc
  else if c = ".." then
    match acc.getLast? with
    | some prev => if prev = ".." then acc ++ [".."] else acc.dropLast
    | none => [".."]
  else acc ++ [c]

/-- The normalised component list of a relative POSIX path (what
`os.path.normpath` computes before re-joining): this is where `..` segments
smuggled inside a filename cancel the directories before them. -/
def normComponents (path : String) : List String :=
  (splitChar '/' path).foldl normStep []

/-- A PDF binary as the extraction layer sees it: either a document whose
pages each yield an optional extracted text (`none` models
`page.extract_text()` returning `None`), or a document on which `PyPDF2`
raises while parsing. -/
inductive PdfDoc where
  | pagesDoc (pages : List (Option String)) : PdfDoc
  | parseFailure : PdfDoc
deriving DecidableEq

/-- The loop body of `extract_text_from_pdf`: append the page's extracted
text plus `"\n"` when that text is truthy (neither `None` nor empty),
otherwise keep the accumulator. -/
def extractStep (text : String) (extracted : Option String) : String :=
  match extracted with
  | some e => if e = "" then text else text ++ e ++ "\n"
  | none => text

/-- `extract_text_from_pdf` (src/app.py lines 84-96): start from `""`, run
the page loop, and on a parser exception return `""`. -/
def extract_text_from_pdf : PdfDoc → String
  | PdfDoc.parseFailure => ""
  | PdfDoc.pagesDoc pages => pages.foldl extractStep ""

/-- The `prompts` dictionary of `analyze_with_gemini_rest`
(src/app.py lines 102-108), built from the (already truncated) text. -/
def prompts (text : String) : List (String × String) :=
  [("summary",
      "Analyze this research paper and provide a comprehensive summary in 200 words:\n\n" ++ text),
   ("key_findings",
      "Extract and list 4-5 main findings from this research paper:\n\n" ++ text),
   ("methodology",
      "Describe the research methodology used in this paper:\n\n" ++ text),
   ("research_gaps",
      "Identify 3-5 research gaps and limitations in this paper:\n\n" ++ text),
   ("future_work",
      "Suggest 4-5 specific areas for future research based on this paper:\n\n" ++ text)]

/-- The prompt `analyze_with_gemini_rest` sends to the model: the input is
first truncated to its first 6000 characters (`text[:6000]`), then the
prompt for `analysis_type` is looked up with the summary prompt as default
(`prompts.get(analysis_type, prompts["summary"])`). -/
def geminiPrompt (text analysis_type : String) : String :=
  let t := pySlice text 6000
  ((prompts t).lookup analysis_type).getD (((prompts t).lookup "summary").getD "")

/-- `analyze_with_gemini_rest` (src/app.py lines 98-122) with the external
Gemini call abstracted as an oracle from prompt to either a generated text or
an exception message; the `except` branch returns `"Error: " + str(e)`. -/
def analyze_with_gemini_rest (gemini : String → Except String String)
    (text analysis_type : String) : String :=
  match gemini (geminiPrompt text analysis_type) with
  | Except.ok r => r
  | Except.error e => "Error: " ++ e

/-- The five analysis fields returned by `analyze_paper_with_ai`. -/
structure AnalysisResult where
  summary : String
  key_findings : String
  methodology : String
  research_gaps : String
  future_work : String
deriving DecidableEq

/-- `analyze_paper_with_ai` (src/app.py lines 124-143): for falsy or
short (< 100 characters) text return the five fixed error strings, otherwise
run `analyze_with_gemini_rest` once per analysis kind. -/
def analyze_paper_with_ai (gemini : String → Except String String)
    (text : String) : AnalysisResult :=
  if text = "" ∨ text.length < 100 then
    { summary := "Error: Could not extract text from PDF",
      key_findings := "Error: Could not extract text from PDF",
      methodology := "Error: Could not extract text from PDF",
      research_gaps := "Error: Could not extract text from PDF",
      future_work := "Error: Could not extract text from PDF" }
  else
    { summary := analyze_with_gemini_rest gemini text "summary",
      key_findings := analyze_with_gemini_rest gemini text "key_findings",
      methodology := analyze_with_gemini_rest gemini text "methodology",
      research_gaps := analyze_with_gemini_rest gemini text "research_gaps",
      future_work := analyze_with_gemini_rest gemini text "future_work" }

/-- Row of the `User` table (src/app.py lines 56-65); timestamps are
abstracted as naturals. -/
structure User where
  id : Nat
  email : String
  password : String
  name : String
  is_premium : Bool
  premium_until : Option Nat
  stripe_customer_id : Option String
  created_at : Nat
deriving DecidableEq

/-- Row of the `Paper` table (src/app.py lines 67-78). -/
structure Paper where
  id : Nat
  user_id : Nat
  title : String
  filename : String
  filepath : String
  summary : Option String
  research_gaps : Option String
  future_work : Option String
  key_findings : Option String
  methodology : Option String
  uploaded_at : Nat
deriving DecidableEq

/-- The persistent state a request sees: the two tables, the upload
directory's files (path paired with the stored binary), and the
auto-increment counters of the two primary keys. -/
structure St where
  users : List User
  papers : List Paper
  files : List (String × PdfDoc)
  nextUserId : Nat
  nextPaperId : Nat
deriving DecidableEq

/-- Item of the `GET /api/papers` listing (src/app.py lines 260-266). -/
structure PaperItem where
  id : Nat
  title : String
  filename : String
  uploaded_at : Nat
  summary : Option String
deriving DecidableEq

/-- JSON bodies the handlers can produce (success payloads and the
`{'error': message}` shape); a response is a status code paired with one. -/
inductive Body where
  | errorMsg (msg : String)
  | authOk (access_token : String) (id : Nat) (email name : String) (is_premium : Bool)
  | paperList (items : List PaperItem)
  | paperFull (id : Nat) (title filename : String) (uploaded_at : Nat)
      (summary key_findings methodology research_gaps future_work : Option String)
  | uploadOk (paper_id : Nat) (analysis : AnalysisResult)
  | deleteOk
deriving DecidableEq

/-- External JWT issuance (`create_access_token(identity=str(user.id))`),
abstracted as an injective tagging of the identity string. -/
def create_access_token (identity : String) : String := "jwt:" ++ identity

/-- `signup` (src/app.py lines 149-188): duplicate email returns 400 with a
fixed message; otherwise the password is hashed (external `bcrypt` oracle
`hashpw`), the user row is added and committed.  The commit oracle models
`db.session.add/commit`: on an exception `e` the handler rolls back and
returns `({'error': str(e)}, 500)`. -/
def signup (st : St) (hashpw : String → String) (commit : Except String Unit)
    (email password name : String) (now : Nat) : (Nat × Body) × St :=
  if (st.users.find? (fun u => u.email == email)).isSome then
    ((400, Body.errorMsg "Email already exists"), st)
  else
    match commit with
    | Except.error e => ((500, Body.errorMsg e), st)
    | Except.ok _ =>
      let hashed := hashpw password
      let new_user : User :=
        { id := st.nextUserId, email := email, password := hashed, name := name,
          is_premium := false, premium_until := none, stripe_customer_id := none,
          created_at := now }
      ((201, Body.authOk (create_access_token (toString new_user.id))
          new_user.id new_user.email new_user.name new_user.is_premium),
       { st with users := st.users ++ [new_user], nextUserId := st.nextUserId + 1 })

/-- `login` (src/app.py lines 190-218): look the user up by email; on a
present user whose stored hash checks out (external `bcrypt` oracle `check`)
return the token payload, otherwise fall through to the single
`{'error': 'Invalid credentials'}, 401` response. -/
def login (st : St) (check : String → String → Bool)
    (email password : String) : Nat × Body :=
  match st.users.find? (fun u => u.email == email) with
  | some user =>
    if check user.password password then
      (200, Body.authOk (create_access_token (toString user.id))
        user.id user.email user.name user.is_premium)
    else (401, Body.errorMsg "Invalid credentials")
  | none => (401, Body.errorMsg "Invalid credentials")

/-- The list-view summary expression of `get_papers` (src/app.py line 265):
`p.summary[:200] + '...' if p.summary and len(p.summary) > 200 else p.summary`. -/
def listSummary (s : Option String) : Option String :=
  match s with
  | some t => if 200 < t.length then some (pySlice t 200 ++ "...") else some t
  | none => none

/-- The dictionary built for one paper of the `GET /api/papers` listing. -/
def paperToItem (p : Paper) : PaperItem :=
  { id := p.id, title := p.title, filename := p.filename,
    uploaded_at := p.uploaded_at, summary := listSummary p.summary }

/-- The ordering `order_by(Paper.uploaded_at.desc())` sorts by. -/
def newestFirst (a b : Paper) : Prop := b.uploaded_at ≤ a.uploaded_at

instance : DecidableRel newestFirst := fun a b => Nat.decLe b.uploaded_at a.uploaded_at

instance : IsTotal Paper newestFirst :=
  ⟨fun a b => Nat.le_total b.uploaded_at a.uploaded_at⟩

instance : IsTrans Paper newestFirst :=
  ⟨fun _ _ _ h₁ h₂ => Nat.le_trans h₂ h₁⟩

/-- `get_papers` (src/app.py lines 249-266): the requesting user's rows,
ordered by upload time descending, mapped to list items with the truncated
summary. -/
def get_papers (st : St) (user_id : Nat) : Nat × Body :=
  let papers :=
    List.insertionSort newestFirst (st.papers.filter (fun p => p.user_id == user_id))
  (200, Body.paperList (papers.map paperToItem))

/-- The configured upload directory (`app.config['UPLOAD_FOLDER']`). -/
def upload_folder : String := "uploads"

/-- The `safe_filename` built by `upload_paper` (src/app.py line 304):
`f"{user_id}_{int(timestamp)}_{file.filename}"`, the client-supplied
filename embedded verbatim. -/
def safe_filename (user_id timestamp : Nat) (filename : String) : String :=
  toString user_id ++ "_" ++ toString timestamp ++ "_" ++ filename

/-- The multipart upload of `POST /api/upload-paper`: the `file` part, when
present, carries the client-supplied filename and the binary content. -/
structure FileUpload where
  filename : String
  content : PdfDoc
deriving DecidableEq

/-- The request seen by `upload_paper`: `request.files` either holds a
`file` part or not. -/
structure UploadRequest where
  file : Option FileUpload
deriving DecidableEq

/-- `upload_paper` (src/app.py lines 274-356): load the user (404 when
absent); deny with 403 when the user is not premium and already holds at
least 3 papers; validate the file part, the non-empty filename and the
case-insensitive `.pdf` extension (400 each); save the binary under
`uploads/{user_id}_{timestamp}_{filename}`; extract its text and fail with
400 when the text is falsy or shorter than 100 characters (the saved binary
stays); otherwise run the five analyses and append the new `Paper` row whose
title is `file.filename.replace('.pdf', '')`. -/
def upload_paper (st : St) (gemini : String → Except String String)
    (user_id : Nat) (req : UploadRequest) (timestamp : Nat) : (Nat × Body) × St :=
  match st.users.find? (fun u => u.id == user_id) with
  | none => ((404, Body.errorMsg "User not found"), st)
  | some user =>
    let user_papers := (st.papers.filter (fun p => p.user_id == user_id)).length
    if user.is_premium = false ∧ 3 ≤ user_papers then
      ((403, Body.errorMsg "Free users can only upload 3 papers. Upgrade to premium!"), st)
    else
      match req.file with
      | none => ((400, Body.errorMsg "No file provided"), st)
      | some file =>
        if file.filename = "" then ((400, Body.errorMsg "No file selected"), st)
        else if endsWithStr (lowerStr file.filename) ".pdf" = false then
          ((400, Body.errorMsg "Only PDF files are allowed"), st)
        else
          let filepath := osPathJoin upload_folder (safe_filename user_id timestamp file.filename)
          let st1 := { st with files := (filepath, file.content) :: st.files }
          let text := extract_text_from_pdf file.content
          if text = "" ∨ text.length < 100 then
            ((400, Body.errorMsg "Could not extract text from PDF"), st1)
          else
            let analysis := analyze_paper_with_ai gemini text
            let paper : Paper :=
              { id := st.nextPaperId, user_id := user_id,
                title := pyReplace file.filename ".pdf" "",
                filename := file.filename, filepath := filepath,
                summary := some analysis.summary,
                research_gaps := some analysis.research_gaps,
                future_work := some analysis.future_work,
                key_findings := some analysis.key_findings,
                methodology := some analysis.methodology,
                uploaded_at := timestamp }
            ((201, Body.uploadOk paper.id analysis),
             { st1 with papers := st1.papers ++ [paper], nextPaperId := st.nextPaperId + 1 })

/-- `get_paper` (src/app.py lines 358-381): the row is looked up by id
**and** requesting user id; a miss (absent id or another user's paper) is
the single `{'error': 'Paper not found'}, 404` response; a hit returns the
full record, the summary untruncated.  The handler writes nothing. -/
def get_paper (st : St) (user_id paper_id : Nat) : Nat × Body :=
  match st.papers.find? (fun p => p.id == paper_id && p.user_id == user_id) with
  | none => (404, Body.errorMsg "Paper not found")
  | some paper =>
    (200, Body.paperFull paper.id paper.title paper.filename paper.uploaded_at
      paper.summary paper.key_findings paper.methodology paper.research_gaps
      paper.future_work)

/-- `delete_paper` (src/app.py lines 383-402): the same owner-filtered
lookup; a miss returns 404 and leaves the state untouched; a hit removes the
stored binary (`os.remove` after `os.path.exists`) and the row. -/
def delete_paper (st : St) (user_id paper_id : Nat) : (Nat × Body) × St :=
  match st.papers.find? (fun p => p.id == paper_id && p.user_id == user_id) with
  | none => ((404, Body.errorMsg "Paper not found"), st)
  | some paper =>
    ((200, Body.deleteOk),
     { st with
        files := st.files.filter (fun f => f.1 != paper.filepath),
        papers := st.papers.filter (fun q => q.id != paper.id) })

/-- The five analysis kinds named by the spec. -/
def analysisKinds : List String :=
  ["summary", "key_findings", "methodology", "research_gaps", "future_work"]

/-- The instruction header of each analysis kind's prompt (unknown kinds
share the summary header), so that each prompt is this header followed by
the truncated text. -/
def promptHeader (kind : String) : String :=
  if kind = "key_findings" then
    "Extract and list 4-5 main findings from this research paper:\n\n"
  else if kind = "methodology" then
    "Describe the research methodology used in this paper:\n\n"
  else if kind = "research_gaps" then
    "Identify 3-5 research gaps and limitations in this paper:\n\n"
  else if kind = "future_work" then
    "Suggest 4-5 specific areas for future research based on this paper:\n\n"
  else
    "Analyze this research paper and provide a comprehensive summary in 200 words:\n\n"

/-- The title C4 describes, following the spec's words: the filename with
its `.pdf` suffix stripped, and only the suffix. -/
def suffixStrippedTitle (fname : String) : String :=
  if endsWithStr fname ".pdf" then ⟨fname.data.take (fname.data.length - 4)⟩
  else fname

/-- The extraction result C9 describes, following the spec's words: the
non-empty page texts joined with a newline **separator**. -/
def joinedPagesText (pages : List (Option String)) : String :=
  String.intercalate "\n"
    (pages.filterMap (fun e? =>
      match e? with
      | some e => if e = "" then none else some e
      | none => none))

/-- The contribution of one page to the extraction output under the amended
reading of C9: a non-empty page text followed by a newline terminator,
nothing for a skipped page. -/
def pageChunk : Option String → Option String
  | some e => if e = "" then none else some (e ++ "\n")
  | none => none

/-- Plain concatenation of a list of strings (used to state the amended C9). -/
def concatStrings : List String → String
  | [] => ""
  | s :: rest => s ++ concatStrings rest

/-- Sample bcrypt oracle for concrete runs. -/
def hash0 : String → String := fun s => "h:" ++ s

/-- Sample Gemini oracle that always answers `"ok"`. -/
def gem0 : String → Except String String := fun _ => Except.ok "ok"

/-- A second sample Gemini oracle, used to exhibit oracle-independence. -/
def gem1 : String → Except String String := fun _ => Except.error "down"

/-- Sample bcrypt check matching `hash0`. -/
def check0 : String → String → Bool := fun stored given => stored == "h:" ++ given

/-- Sample non-premium user. -/
def alice : User :=
  { id := 1, email := "alice@example.com", password := "h:pw", name := "Alice",
    is_premium := false, premium_until := none, stripe_customer_id := none,
    created_at := 0 }

/-- Sample premium user. -/
def bob : User :=
  { id := 2, email := "bob@example.com", password := "h:pw2", name := "Bob",
    is_premium := true, premium_until := none, stripe_customer_id := none,
    created_at := 0 }

/-- Sample paper row owned by `uid`, uploaded at `ts`. -/
def samplePaper (pid uid ts : Nat) : Paper :=
  { id := pid, user_id := uid, title := "t", filename := "t.pdf",
    filepath := "uploads/t.pdf", summary := some "s", research_gaps := none,
    future_work := none, key_findings := none, methodology := none,
    uploaded_at := ts }

/-- Sample store: Alice (non-premium) already holds 3 papers, Bob (premium)
holds one. -/
def st3 : St :=
  { users := [alice, bob],
    papers := [samplePaper 10 1 5, samplePaper 11 1 6, samplePaper 12 1 7,
               samplePaper 20 2 9],
    files := [], nextUserId := 3, nextPaperId := 30 }

/-- A page text of more than 100 characters, so its extraction passes the
minimum-content check. -/
def longText : String :=
  "The quick brown fox jumps over the lazy dog while the patient researcher measures every single step of the extraction pipeline."

/-- A PDF whose only page extracts to fewer than 100 characters. -/
def shortDoc : PdfDoc := PdfDoc.pagesDoc [some "tiny"]

/-- A PDF whose only page extracts to more than 100 characters. -/
def longDoc : PdfDoc := PdfDoc.pagesDoc [some longText]

/-- Claim C1: a non-premium user who already owns 3 or more papers is denied
the upload with HTTP 403 and the whole state (in particular the `Paper`
table) is unchanged, while a premium user is never answered with 403. -/
theorem upload_quota_enforced (st : St) (gemini : String → Except String String)
    (user_id : Nat) (req : UploadRequest) (ts : Nat) (u : User)
    (hu : st.users.find? (fun v => v.id == user_id) = some u) :
    (u.is_premium = false →
      3 ≤ (st.papers.filter (fun p => p.user_id == user_id)).length →
      upload_paper st gemini user_id req ts =
        ((403, Body.errorMsg "Free users can only upload 3 papers. Upgrade to premium!"), st))
    ∧ (u.is_premium = true → (upload_paper st gemini user_id req ts).1.1 ≠ 403) := by
  constructor
  · intro hprem hcount
    simp only [upload_paper, hu]
    rw [if_pos ⟨hprem, hcount⟩]
  · intro hprem
    simp only [upload_paper, hu]
    rw [if_neg (by simp [hprem])]
    rcases hreq : req.file with _ | file
    · simp
    · simp only []
      split
      · simp
      · split
        · simp
        · split
          · simp
          · simp

/-- Closed instance of C1: in `st3`, non-premium Alice (3 papers) is denied
with 403 and nothing changes. -/
theorem upload_quota_enforced_witness :
    upload_paper st3 gem0 1 ⟨some ⟨"x.pdf", shortDoc⟩⟩ 50 =
      ((403, Body.errorMsg "Free users can only upload 3 papers. Upgrade to premium!"), st3) :=
  (upload_quota_enforced st3 gem0 1 ⟨some ⟨"x.pdf", shortDoc⟩⟩ 50 alice (by rfl)).1
    (by rfl) (by decide)

/-- Claim C2: when no paper of id `paper_id` belongs to `user_id`, both the
single-paper fetch and the delete answer 404 `Paper not found`, and the
delete leaves the state (rows and files) untouched (`get_paper` is
read-only by construction). -/
theorem cross_user_paper_notfound (st : St) (user_id paper_id : Nat)
    (h : ∀ p ∈ st.papers, p.id = paper_id → p.user_id ≠ user_id) :
    get_paper st user_id paper_id = (404, Body.errorMsg "Paper not found")
    ∧ delete_paper st user_id paper_id = ((404, Body.errorMsg "Paper not found"), st) := by
  have hfind : st.papers.find? (fun p => p.id == paper_id && p.user_id == user_id) = none := by
    rw [List.find?_eq_none]
    intro p hp
    simp only [Bool.and_eq_true, beq_iff_eq, not_and]
    exact fun hid => h p hp hid
  constructor
  · simp [get_paper, hfind]
  · simp [delete_paper, hfind]

/-- Closed instance of C2: Alice (user 1) asking for Bob's paper 20 gets 404
from both handlers and the state survives the delete unchanged. -/
theorem cross_user_paper_notfound_witness :
    get_paper st3 1 20 = (404, Body.errorMsg "Paper not found")
    ∧ delete_paper st3 1 20 = ((404, Body.errorMsg "Paper not found"), st3) :=
  cross_user_paper_notfound st3 1 20 (by decide)

/-- Claim C6: a login for a registered email with a wrong password and a
login for an unregistered email produce the same response, namely
401 `Invalid credentials`. -/
theorem login_failures_indistinguishable (st : St) (check : String → String → Bool)
    (email₁ pw₁ email₂ pw₂ : String) (u : User)
    (h₁ : st.users.find? (fun v => v.email == email₁) = some u)
    (h₂ : check u.password pw₁ = false)
    (h₃ : st.users.find? (fun v => v.email == email₂) = none) :
    login st check email₁ pw₁ = login st check email₂ pw₂
    ∧ login st check email₁ pw₁ = (401, Body.errorMsg "Invalid credentials") := by
  have ha : login st check email₁ pw₁ = (401, Body.errorMsg "Invalid credentials") := by
    simp [login, h₁, h₂]
  have hb : login st check email₂ pw₂ = (401, Body.errorMsg "Invalid credentials") := by
    simp [login, h₃]
  exact ⟨ha.trans hb.symm, ha⟩

/-- Closed instance of C6: Alice's email with a wrong password and an
unknown email give the identical 401 response. -/
theorem login_failures_indistinguishable_witness :
    login st3 check0 "alice@example.com" "wrong" = login st3 check0 "nobody@example.com" "w"
    ∧ login st3 check0 "alice@example.com" "wrong" = (401, Body.errorMsg "Invalid credentials") :=
  login_failures_indistinguishable st3 check0 "alice@example.com" "wrong"
    "nobody@example.com" "w" alice (by rfl) (by decide) (by rfl)

/-- Claim C8: for every text and kind the prompt sent to the model is the
kind's instruction header followed by exactly the first 6000 characters of
the text, and a kind outside the five known ones uses the summary header. -/
theorem analysis_prompt_truncated (text kind : String) :
    geminiPrompt text kind = promptHeader kind ++ pySlice text 6000
    ∧ (kind ∉ analysisKinds →
        geminiPrompt text kind = promptHeader "summary" ++ pySlice text 6000) := by
  have hmain : geminiPrompt text kind = promptHeader kind ++ pySlice text 6000 := by
    by_cases h1 : kind = "summary"
    · subst h1; simp +decide [geminiPrompt, prompts, promptHeader, List.lookup]
    · by_cases h2 : kind = "key_findings"
      · subst h2; simp +decide [geminiPrompt, prompts, promptHeader, List.lookup]
      · by_cases h3 : kind = "methodology"
        · subst h3; simp +decide [geminiPrompt, prompts, promptHeader, List.lookup]
        · by_cases h4 : kind = "research_gaps"
          · subst h4; simp +decide [geminiPrompt, prompts, promptHeader, List.lookup]
          · by_cases h5 : kind = "future_work"
            · subst h5; simp +decide [geminiPrompt, prompts, promptHeader, List.lookup]
            · have e1 : (kind == "summary") = false := beq_eq_false_iff_ne.mpr h1
              have e2 : (kind == "key_findings") = false := beq_eq_false_iff_ne.mpr h2
              have e3 : (kind == "methodology") = false := beq_eq_false_iff_ne.mpr h3
              have e4 : (kind == "research_gaps") = false := beq_eq_false_iff_ne.mpr h4
              have e5 : (kind == "future_work") = false := beq_eq_false_iff_ne.mpr h5
              simp +decide [geminiPrompt, prompts, promptHeader, List.lookup,
                e1, e2, e3, e4, e5, h1, h2, h3, h4, h5]
  refine ⟨hmain, fun hk => ?_⟩
  have h2 : kind ≠ "key_findings" := fun h => hk (by simp [analysisKinds, h])
  have h3 : kind ≠ "methodology" := fun h => hk (by simp [analysisKinds, h])
  have h4 : kind ≠ "research_gaps" := fun h => hk (by simp [analysisKinds, h])
  have h5 : kind ≠ "future_work" := fun h => hk (by simp [analysisKinds, h])
  rw [hmain]
  have : promptHeader kind = promptHeader "summary" := by
    simp +decide [promptHeader, h2, h3, h4, h5]
  rw [this]

/-- Closed instance of C8: the unknown kind `"weird"` falls back to the
summary prompt. -/
theorem analysis_prompt_truncated_witness :
    geminiPrompt "T" "weird" = promptHeader "summary" ++ pySlice "T" 6000 :=
  (analysis_prompt_truncated "T" "weird").2 (by decide)

/-- Claim C10: the storage path is the upload directory joined with
`{userId}_{unixTimestamp}_{originalFilename}` with the client-supplied
filename embedded verbatim, and there is a filename with directory
components whose saved path normalises to a location outside `uploads`. -/
theorem upload_path_join_unsanitized :
    (∀ (uid ts : Nat) (fname : String),
        startsWithStr (safe_filename uid ts fname) "/" = false →
        osPathJoin upload_folder (safe_filename uid ts fname)
          = "uploads/" ++ (toString uid ++ "_" ++ toString ts ++ "_" ++ fname))
    ∧ (∃ fname : String, 1 < (splitChar '/' fname).length ∧
        (normComponents (osPathJoin upload_folder (safe_filename 1 0 fname))).head?
          ≠ some "uploads") := by
  constructor
  · intro uid ts fname h
    unfold osPathJoin upload_folder
    rw [h]
    rw [if_neg (by simp), if_neg (by decide), if_neg (by decide)]
    rw [show ("uploads" ++ "/" : String) = "uploads/" from by decide]
    rfl
  · exact ⟨"../../../etc/passwd", by decide, by decide⟩

/-- Closed instance of C10's join shape at a harmless filename. -/
theorem upload_path_join_unsanitized_witness :
    osPathJoin upload_folder (safe_filename 1 0 "a.pdf")
      = "uploads/" ++ (toString 1 ++ "_" ++ toString 0 ++ "_" ++ "a.pdf") :=
  upload_path_join_unsanitized.1 1 0 "a.pdf" (by decide)

/-- Claim C3: when the saved file's extracted text is empty or shorter than
100 characters, the upload answers 400 with the extraction-failure message;
the `Paper` table is untouched and the saved binary stays in the upload
directory (only `files` grows); and the Gemini oracle is never consulted —
the outcome is identical under any two oracles. -/
theorem upload_extraction_failure (st : St) (g g' : String → Except String String)
    (user_id ts : Nat) (u : User) (req : UploadRequest) (f : FileUpload)
    (hu : st.users.find? (fun v => v.id == user_id) = some u)
    (hq : ¬(u.is_premium = false ∧
        3 ≤ (st.papers.filter (fun p => p.user_id == user_id)).length))
    (hreq : req.file = some f)
    (hfn : ¬ f.filename = "")
    (hpdf : endsWithStr (lowerStr f.filename) ".pdf" = true)
    (hshort : extract_text_from_pdf f.content = ""
        ∨ (extract_text_from_pdf f.content).length < 100) :
    upload_paper st g user_id req ts =
      ((400, Body.errorMsg "Could not extract text from PDF"),
       { st with files :=
          (osPathJoin upload_folder (safe_filename user_id ts f.filename), f.content)
            :: st.files })
    ∧ upload_paper st g user_id req ts = upload_paper st g' user_id req ts := by
  have key : ∀ gg : String → Except String String,
      upload_paper st gg user_id req ts =
        ((400, Body.errorMsg "Could not extract text from PDF"),
         { st with files :=
            (osPathJoin upload_folder (safe_filename user_id ts f.filename), f.content)
              :: st.files }) := by
    intro gg
    simp only [upload_paper, hu, hreq]
    rw [if_neg hq, if_neg hfn, if_neg (by simp [hpdf]), if_pos hshort]
  exact ⟨key g, (key g).trans (key g').symm⟩

/-- Closed instance of C3: premium Bob uploads a PDF whose single page
extracts to 5 characters; the request fails with 400, no row is added, and
the file stays saved. -/
theorem upload_extraction_failure_witness :
    upload_paper st3 gem0 2 ⟨some ⟨"z.pdf", shortDoc⟩⟩ 60 =
      ((400, Body.errorMsg "Could not extract text from PDF"),
       { st3 with files :=
          (osPathJoin upload_folder (safe_filename 2 60 "z.pdf"), shortDoc) :: st3.files }) :=
  (upload_extraction_failure st3 gem0 gem1 2 60 bob ⟨some ⟨"z.pdf", shortDoc⟩⟩
    ⟨"z.pdf", shortDoc⟩ (by rfl) (by decide) (by rfl) (by decide) (by decide)
    (Or.inr (by decide))).1

set_option maxRecDepth 100000 in
/-- Counterexample to C4 as stated: uploading `a.pdf.pdf` persists the title
`a` — Python's `replace` removes every occurrence of `.pdf` — whereas
stripping only the suffix would give `a.pdf`. -/
theorem upload_title_counterexample :
    ((upload_paper st3 gem0 2 ⟨some ⟨"a.pdf.pdf", longDoc⟩⟩ 70).2.papers.map Paper.title)
      = ["t", "t", "t", "t", "a"]
    ∧ suffixStrippedTitle "a.pdf.pdf" = "a.pdf"
    ∧ ("a" : String) ≠ "a.pdf" :=
  ⟨by decide, by decide, by decide⟩

/-- Claim C4 (amended): on a successful upload the persisted row's title is
the filename with **every** occurrence of the substring `.pdf` removed
(Python `filename.replace('.pdf', '')`, case-sensitive, not only the
suffix), while the row's filename field stores the original filename
unchanged. -/
theorem upload_title_replaces_all (st : St) (g : String → Except String String)
    (user_id ts : Nat) (u : User) (req : UploadRequest) (f : FileUpload)
    (hu : st.users.find? (fun v => v.id == user_id) = some u)
    (hq : ¬(u.is_premium = false ∧
        3 ≤ (st.papers.filter (fun p => p.user_id == user_id)).length))
    (hreq : req.file = some f)
    (hfn : ¬ f.filename = "")
    (hpdf : endsWithStr (lowerStr f.filename) ".pdf" = true)
    (hlong : ¬(extract_text_from_pdf f.content = ""
        ∨ (extract_text_from_pdf f.content).length < 100)) :
    (upload_paper st g user_id req ts).2.papers =
      st.papers ++
        [{ id := st.nextPaperId, user_id := user_id,
           title := pyReplace f.filename ".pdf" "",
           filename := f.filename,
           filepath := osPathJoin upload_folder (safe_filename user_id ts f.filename),
           summary := some (analyze_paper_with_ai g (extract_text_from_pdf f.content)).summary,
           research_gaps := some (analyze_paper_with_ai g (extract_text_from_pdf f.content)).research_gaps,
           future_work := some (analyze_paper_with_ai g (extract_text_from_pdf f.content)).future_work,
           key_findings := some (analyze_paper_with_ai g (extract_text_from_pdf f.content)).key_findings,
           methodology := some (analyze_paper_with_ai g (extract_text_from_pdf f.content)).methodology,
           uploaded_at := ts }] := by
  simp only [upload_paper, hu, hreq]
  rw [if_neg hq, if_neg hfn, if_neg (by simp [hpdf]), if_neg hlong]

set_option maxRecDepth 100000 in
/-- Closed instance of the amended C4: Bob's upload of `a.pdf.pdf` appends
exactly one row whose title is `pyReplace "a.pdf.pdf" ".pdf" ""` and whose
filename is the original `a.pdf.pdf`. -/
theorem upload_title_replaces_all_witness :
    (upload_paper st3 gem0 2 ⟨some ⟨"a.pdf.pdf", longDoc⟩⟩ 70).2.papers =
      st3.papers ++
        [{ id := st3.nextPaperId, user_id := 2,
           title := pyReplace "a.pdf.pdf" ".pdf" "",
           filename := "a.pdf.pdf",
           filepath := osPathJoin upload_folder (safe_filename 2 70 "a.pdf.pdf"),
           summary := some (analyze_paper_with_ai gem0 (extract_text_from_pdf longDoc)).summary,
           research_gaps := some (analyze_paper_with_ai gem0 (extract_text_from_pdf longDoc)).research_gaps,
           future_work := some (analyze_paper_with_ai gem0 (extract_text_from_pdf longDoc)).future_work,
           key_findings := some (analyze_paper_with_ai gem0 (extract_text_from_pdf longDoc)).key_findings,
           methodology := some (analyze_paper_with_ai gem0 (extract_text_from_pdf longDoc)).methodology,
           uploaded_at := 70 }] :=
  upload_title_replaces_all st3 gem0 2 70 bob ⟨some ⟨"a.pdf.pdf", longDoc⟩⟩
    ⟨"a.pdf.pdf", longDoc⟩ (by rfl) (by decide) (by rfl) (by decide) (by decide)
    (by decide)

/-- Counterexample to C5 as stated: the generic exception handler copies the
internal exception text (`str(e)`) verbatim into the client response, so the
body is not a fixed short message and distinct internal failures are
distinguishable from outside. -/
theorem error_leak_counterexample :
    (signup st3 hash0 (Except.error "OperationalError: database is locked")
        "new@example.com" "pw" "Nora" 1).1
      = (500, Body.errorMsg "OperationalError: database is locked")
    ∧ (signup st3 hash0 (Except.error "A") "new@example.com" "pw" "Nora" 1).1
      ≠ (signup st3 hash0 (Except.error "B") "new@example.com" "pw" "Nora" 1).1 :=
  ⟨by decide, by decide⟩

/-- Claim C5 (amended): a handled validation failure (duplicate email)
answers with its fixed short message and status 400, but an unexpected
exception `e` during user creation answers status 500 with the exception's
own string representation as the error message — internal exception details
do reach the client (stack traces are only printed server-side); both paths
leave the store unchanged. -/
theorem error_response_shape (st : St) (hashpw : String → String)
    (e email pw nm : String) (now : Nat) :
    ((st.users.find? (fun u => u.email == email)).isSome = true →
      signup st hashpw (Except.error e) email pw nm now =
        ((400, Body.errorMsg "Email already exists"), st))
    ∧ ((st.users.find? (fun u => u.email == email)).isSome = false →
      signup st hashpw (Except.error e) email pw nm now =
        ((500, Body.errorMsg e), st)) := by
  constructor
  · intro h; simp [signup, h]
  · intro h; simp [signup, h]

/-- Closed instance of the amended C5: an internal exception string `boom`
comes back verbatim with status 500. -/
theorem error_response_shape_witness :
    signup st3 hash0 (Except.error "boom") "new@example.com" "pw" "Nora" 1 =
      ((500, Body.errorMsg "boom"), st3) :=
  (error_response_shape st3 hash0 "boom" "new@example.com" "pw" "Nora" 1).2 (by decide)

/-- Claim C7: the listing body is a permutation of the user's rows mapped to
list items, ordered by upload time descending; a listed summary longer than
200 characters becomes its first 200 characters plus an ellipsis while a
shorter one passes unchanged; and the single-paper view returns the stored
summary in full. -/
theorem papers_listing_spec (st : St) (user_id : Nat) :
    (∃ items : List PaperItem,
        get_papers st user_id = (200, Body.paperList items)
      ∧ items.Pairwise (fun a b => b.uploaded_at ≤ a.uploaded_at)
      ∧ items.Perm ((st.papers.filter (fun p => p.user_id == user_id)).map paperToItem))
    ∧ (∀ (p : Paper) (s : String), p.summary = some s →
        (200 < s.length → (paperToItem p).summary = some (pySlice s 200 ++ "..."))
        ∧ (¬ 200 < s.length → (paperToItem p).summary = some s))
    ∧ (∀ (paper_id : Nat) (p : Paper),
        st.papers.find? (fun q => q.id == paper_id && q.user_id == user_id) = some p →
        get_paper st user_id paper_id =
          (200, Body.paperFull p.id p.title p.filename p.uploaded_at
            p.summary p.key_findings p.methodology p.research_gaps p.future_work)) := by
  refine ⟨⟨_, rfl, ?_, ?_⟩, ?_, ?_⟩
  · have hs := List.sorted_insertionSort newestFirst
      (st.papers.filter (fun p => p.user_id == user_id))
    exact List.pairwise_map.mpr (hs.imp (fun h => h))
  · exact (List.perm_insertionSort newestFirst _).map paperToItem
  · intro p s hs
    constructor
    · intro hl; simp [paperToItem, listSummary, hs, hl]
    · intro hl; simp [paperToItem, listSummary, hs, hl]
  · intro paper_id p hfind
    simp [get_paper, hfind]

/-- Closed instance of C7: Alice's single-paper view of paper 10 returns the
stored summary `s` in full. -/
theorem papers_listing_spec_witness :
    get_paper st3 1 10 =
      (200, Body.paperFull 10 "t" "t.pdf" 5 (some "s") none none none none) :=
  (papers_listing_spec st3 1).2.2 10 (samplePaper 10 1 5) (by rfl)

/-- Counterexample to C9 as stated: a one-page document extracting `hello`
yields `hello\n` — the newline is a terminator after each kept page — while
joining the pages with a newline separator would give `hello`. -/
theorem extract_not_separator_counterexample :
    extract_text_from_pdf (PdfDoc.pagesDoc [some "hello"]) = "hello" ++ "\n"
    ∧ joinedPagesText [some "hello"] = "hello"
    ∧ ("hello" ++ "\n" : String) ≠ "hello" :=
  ⟨by decide, by decide, by decide⟩

/-- The page loop of the extractor, run from any accumulator, appends the
concatenation of the kept pages' chunks (page text plus newline terminator). -/
theorem extract_foldl_eq (pages : List (Option String)) (init : String) :
    pages.foldl extractStep init = init ++ concatStrings (pages.filterMap pageChunk) := by
  induction pages generalizing init with
  | nil => simp [concatStrings]
  | cons head tail ih =>
    cases head with
    | none => simp [extractStep, pageChunk, ih]
    | some e =>
      by_cases he : e = ""
      · subst he; simp [extractStep, pageChunk, ih]
      · simp [extractStep, pageChunk, he, ih, concatStrings, String.append_assoc]

/-- Claim C9 (amended): the extraction returns, in page order, the
concatenation of each kept page's text **followed by** a newline (newline as
terminator, not separator), skipping pages whose extraction yields nothing
(`None` or `""`), and returns the empty string on any parse failure. -/
theorem extract_text_characterisation (pages : List (Option String)) :
    extract_text_from_pdf (PdfDoc.pagesDoc pages)
      = concatStrings (pages.filterMap pageChunk)
    ∧ extract_text_from_pdf PdfDoc.parseFailure = "" := by
  constructor
  · have h := extract_foldl_eq pages ""
    simpa [extract_text_from_pdf] using h
  · rfl

end App
